import Mathlib

/-!
Shallow embedding of `custom_components/cielo_home/cielohome.py` (class
`CieloHome`): the authenticated streaming session — outbound command
stamping, the outbound queue drain, the refresh-token gate, the
connection-lost watchdog, the stop flags, and the log-redaction paths.
Each definition cites the source lines it translates.
-/

namespace CieloHome

/-! ## JSON model

Outbound commands and inbound events are Python dicts with string keys.
We model the values that actually occur (strings and integers) and a dict
as an association list with unique keys by construction: `jset` mirrors
Python `d[k] = v` (replace in place if the key exists, else append, which
is Python-dict insertion-order semantics), `jget` mirrors `d[k]`. -/

inductive JVal where
  | str (s : String)
  | num (n : Int)
  deriving DecidableEq, Repr

abbrev JObj := List (String × JVal)

/-- Lookup `d[k]`: first pair whose key is `k`. -/
def jget : JObj → String → Option JVal
  | [], _ => none
  | p :: rest, k => if p.1 = k then some p.2 else jget rest k

/-- Does the dict have key `k`? -/
def hasKey (o : JObj) (k : String) : Bool :=
  o.any (fun p => p.1 == k)

/-- Replace the value at every pair keyed `k` (a Python dict has at most one). -/
def replaceKey : JObj → String → JVal → JObj
  | [], _, _ => []
  | p :: rest, k, v => (if p.1 = k then (k, v) else p) :: replaceKey rest k v

/-- Python `d[k] = v`: overwrite in place when present, append when absent. -/
def jset (o : JObj) (k : String) (v : JVal) : JObj :=
  if hasKey o k then replaceKey o k v else o ++ [(k, v)]

theorem jget_replaceKey_self (o : JObj) (k : String) (v : JVal)
    (h : hasKey o k = true) : jget (replaceKey o k v) k = some v := by
  induction o with
  | nil => simp [hasKey] at h
  | cons p rest ih =>
    by_cases hk : p.1 = k
    · simp [replaceKey, hk, jget]
    · simp only [hasKey, List.any_cons, Bool.or_eq_true, beq_iff_eq] at h
      rcases h with h | h
      · exact absurd h hk
      · simp [replaceKey, hk, jget, ih h]

theorem jget_append_right (o : JObj) (k : String) (v : JVal)
    (h : hasKey o k = false) : jget (o ++ [(k, v)]) k = some v := by
  induction o with
  | nil => simp [jget]
  | cons p rest ih =>
    simp only [hasKey, List.any_cons, Bool.or_eq_false_iff, beq_eq_false_iff_ne,
      ne_eq] at h
    simp [jget, h.1, ih h.2]

/-- `jset` makes `jget` at the same key return the new value. -/
theorem jget_jset_self (o : JObj) (k : String) (v : JVal) :
    jget (jset o k v) k = some v := by
  unfold jset
  by_cases h : hasKey o k = true
  · simp [h, jget_replaceKey_self o k v h]
  · simp only [Bool.not_eq_true] at h
    simp [h, jget_append_right o k v h]

theorem jget_replaceKey_other (o : JObj) (k k' : String) (v : JVal)
    (hne : k ≠ k') : jget (replaceKey o k' v) k = jget o k := by
  induction o with
  | nil => simp [replaceKey]
  | cons p rest ih =>
    by_cases hk : p.1 = k'
    · simp [replaceKey, hk, jget, Ne.symm hne, hk ▸ Ne.symm hne, ih]
    · by_cases hpk : p.1 = k
      · simp [replaceKey, hk, jget, hpk, hne]
      · simp [replaceKey, hk, jget, hpk, ih]

theorem jget_append_other (o : JObj) (k k' : String) (v : JVal)
    (hne : k ≠ k') : jget (o ++ [(k', v)]) k = jget o k := by
  induction o with
  | nil => simp [jget, Ne.symm hne]
  | cons p rest ih =>
    by_cases hpk : p.1 = k
    · simp [jget, hpk]
    · simp [jget, hpk, ih]

/-- `jset` leaves `jget` at a different key unchanged. -/
theorem jget_jset_other (o : JObj) (k k' : String) (v : JVal) (hne : k ≠ k') :
    jget (jset o k' v) k = jget o k := by
  unfold jset
  by_cases h : hasKey o k' = true
  · simp [h, jget_replaceKey_other o k k' v hne]
  · simp only [Bool.not_eq_true] at h
    simp [h, jget_append_other o k k' v hne]

/-- Every pair of `jset o k v` is either the written pair `(k, v)` or a pair
of `o` whose key differs from `k`. -/
theorem mem_jset (o : JObj) (k : String) (v : JVal) (p : String × JVal)
    (hp : p ∈ jset o k v) : p = (k, v) ∨ (p ∈ o ∧ p.1 ≠ k) := by
  unfold jset at hp
  by_cases h : hasKey o k = true
  · simp only [h, if_true] at hp
    clear h
    induction o with
    | nil => simp [replaceKey] at hp
    | cons q rest ih =>
      by_cases hk : q.1 = k
      · simp only [replaceKey, hk, if_true, List.mem_cons] at hp
        rcases hp with hp | hp
        · exact Or.inl hp
        · rcases ih hp with h | ⟨h1, h2⟩
          · exact Or.inl h
          · exact Or.inr ⟨List.mem_cons_of_mem q h1, h2⟩
      · simp only [replaceKey, hk, if_false, List.mem_cons] at hp
        rcases hp with hp | hp
        · subst hp; exact Or.inr ⟨List.mem_cons_self p rest, hk⟩
        · rcases ih hp with h | ⟨h1, h2⟩
          · exact Or.inl h
          · exact Or.inr ⟨List.mem_cons_of_mem q h1, h2⟩
  · simp only [h, if_false, Bool.false_eq_true, List.mem_append,
      List.mem_singleton] at hp
    rcases hp with hp | hp
    · right
      refine ⟨hp, fun hk => ?_⟩
      simp only [Bool.not_eq_true] at h
      have : hasKey o k = true := by
        simp only [hasKey, List.any_eq_true]
        exact ⟨p, hp, by simp [hk]⟩
      rw [h] at this; exact Bool.false_ne_true this
    · exact Or.inl hp

/-- Does any value of the dict equal `v`? (used to check whether a log line
contains a secret value). -/
def objHasVal (o : JObj) (v : JVal) : Bool :=
  o.any (fun p => p.2 == v)

theorem objHasVal_eq_false (o : JObj) (v : JVal)
    (h : ∀ p ∈ o, p.2 ≠ v) : objHasVal o v = false := by
  simp only [objHasVal, List.any_eq_false, beq_iff_eq]
  intro p hp
  exact h p hp

/-! ## Outbound command stamping — `send_action` (cielohome.py 271-283)

```
msg["ts"] = self.get_ts()
if msg["ts"] == self._last_ts_msg:
    msg["ts"] = msg["ts"] + 1
self._last_ts_msg = msg["ts"]
```
-/

/-- The `ts` value `send_action` assigns given the wall clock `get_ts()` value
`now` and the current `_last_ts_msg` (lines 275-281): `now`, bumped by one when
it equals `_last_ts_msg`. The result is also the new `_last_ts_msg`. -/
def sendActionTs (now lastTsMsg : Int) : Int :=
  if now = lastTsMsg then now + 1 else now

/-- `ts` values assigned by a sequence of `send_action` calls, given the
`get_ts()` wall-clock reading at each call and the current `_last_ts_msg`
(initially 0, line 41). -/
def assignTsList (lastTsMsg : Int) : List Int → List Int
  | [] => []
  | now :: rest =>
    let ts := sendActionTs now lastTsMsg
    ts :: assignTsList ts rest

/-- `send_action` (lines 271-283): stamps `token` (the current access token),
`mid` (the session id) and `ts` onto the caller's payload dict, in that order.
The two writes of `msg["ts"]` (line 275, then conditionally line 279) collapse
to one write of the final value `sendActionTs now lastTsMsg`. Returns the
stamped frame and the new `_last_ts_msg`. -/
def sendActionFrame (payload : JObj) (accessToken sessionId : String)
    (now lastTsMsg : Int) : JObj × Int :=
  let m := jset payload "token" (.str accessToken)
  let m := jset m "mid" (.str sessionId)
  let ts := sendActionTs now lastTsMsg
  (jset m "ts" (.num ts), ts)

/-- `send_ping` (lines 305-310) enqueues
`{"message": "Ping Connection Reset", "token": self._access_token}`. -/
def sendPingFrame (accessToken : String) : JObj :=
  [("message", .str "Ping Connection Reset"), ("token", .str accessToken)]

/-! ## Session flags and the refresh-token timer (lines 24-48, 126-136) -/

structure SessionState where
  isRunning : Bool
  stopRunning : Bool
  lastRefreshTokenTs : Int
  refreshTimerScheduled : Bool
  deriving DecidableEq, Repr

/-- `close` (lines 44-48): set `_stop_running`, clear `_is_running` (then sleep
for the 0.5 s grace period). It touches nothing else — in particular not
`_timer_refresh`. -/
def close (s : SessionState) : SessionState :=
  { s with stopRunning := true, isRunning := false }

/-- The grace period `close` waits after flipping the flags: `await
asyncio.sleep(0.5)` (line 48). -/
def closeGraceMs : Nat := 500

/-- The receive/send loop's guard `while self._is_running` (line 198),
re-checked at every iteration boundary. -/
def loopContinues (s : SessionState) : Bool := s.isRunning

/-- The post-loop branch `if not self._stop_running` (line 263): when it is
taken, a reconnect is scheduled after a 5 s wait. -/
def reconnectScheduled (s : SessionState) : Bool := !s.stopRunning

/-- The refresh gate (line 135):
`(self.get_ts() - self._last_refresh_token_ts) > 1200`. -/
def refreshDue (now lastRefreshTs : Int) : Bool :=
  1200 < now - lastRefreshTs

/-- One tick of `refresh_token` (lines 131-136): it FIRST unconditionally
reschedules itself via `start_timer_refreshtoken` (line 134, no flag check),
then runs `async_refresh_token` iff the gate passes. Returns the state after
the tick and how many times `async_refresh_token` was invoked. -/
def refreshTokenTick (now : Int) (s : SessionState) : SessionState × Nat :=
  ({ s with refreshTimerScheduled := true },
   if refreshDue now s.lastRefreshTokenTs then 1 else 0)

/-- `_last_refresh_token_ts = self.get_ts()` — written on login (line 120), on
reaching Connected (line 196) and on refresh success (line 156). -/
def setRefreshTsNow (now : Int) (s : SessionState) : SessionState :=
  { s with lastRefreshTokenTs := now }

/-- `_last_refresh_token_ts = self.get_ts() - 1200` — the connection-failure
handler (line 257) rolls the timestamp back so the next tick refreshes. -/
def rollbackRefreshTs (now : Int) (s : SessionState) : SessionState :=
  { s with lastRefreshTokenTs := now - 1200 }

/-! ## Outbound queue (lines 229-252, 312-318) -/

/-- `send_json` (lines 312-318): append to `_msg_to_send` under the lock. -/
def sendJson (queue : List JObj) (msg : JObj) : List JObj :=
  queue ++ [msg]

/-- One drain pass (lines 235-252): `pop(0)` and transmit while the queue is
non-empty, the lock held throughout so `send_json` cannot interleave.
`transmit m` says whether `websocket.send_json(m)` succeeds. The first failure
raises, aborting the pass, and the in-flight message — and only it — is
re-inserted at the front (`insert(0, msg)`, line 249); messages popped earlier
were already sent (`msg = None`, line 245) and are not re-inserted. Returns
(messages transmitted in order, queue contents afterwards). -/
def drainQueue {α : Type} (transmit : α → Bool) : List α → List α × List α
  | [] => ([], [])
  | m :: rest =>
    if transmit m then
      let (sent, remaining) := drainQueue transmit rest
      (m :: sent, remaining)
    else ([], m :: rest)

/-! ## Receive-loop parse and dispatch (lines 198-227) -/

/-- How the parse-and-dispatch part of a receive-loop iteration can escape the
`while` loop (the handlers at lines 224-227 catch only timeout/cancellation;
anything else reaches the outermost handler at line 255 and the connection is
torn down). -/
inductive LoopEscape where
  | unboundLocal
  | keyError
  deriving DecidableEq, Repr

/-- Parse-and-dispatch of one receive-loop iteration (lines 209-223).
`jsDataPrev` is the Python local `js_data` left by earlier iterations (`none`
before any frame has parsed); `parsed` is the outcome of `json.loads(msg.data)`
(`none` when it raises `ValueError`). The `except ValueError: pass` block
leaves `js_data` UNCHANGED on a parse failure, and line 221 then reads
`js_data["message_type"]` anyway: `UnboundLocalError` when `js_data` was never
assigned, `KeyError` when the key is missing; both escape the loop. When the
type is `"StateUpdate"`, `data_receive(js_data)` is invoked on every registered
listener. Returns the new `js_data` and the (listener, event) dispatches. -/
def recvIteration (jsDataPrev : Option JObj) (parsed : Option JObj)
    (listeners : List String) :
    Except LoopEscape (Option JObj × List (String × JObj)) :=
  let jsData := match parsed with
    | some j => some j
    | none => jsDataPrev
  match jsData with
  | none => .error .unboundLocal
  | some j =>
    match jget j "message_type" with
    | none => .error .keyError
    | some t =>
      if t = .str "StateUpdate" then
        .ok (some j, listeners.map (fun l => (l, j)))
      else
        .ok (some j, [])

/-! ## Connection-lost watchdog (lines 186-191, 263-269, 290-303) -/

/-- `threading.Timer` semantics for the watchdog started by
`start_timer_connection_lost` (lines 290-293, delay 10 s): the callback runs
iff `cancel()` — issued by `stop_timer_connection_lost` the moment a connection
reaches Connected (line 191) — does not happen strictly before the firing
instant `startedAt + 10`. `connectedAt` is when the episode's reconnect reached
Connected, `none` when it never did. -/
def watchdogFires (startedAt : Nat) (connectedAt : Option Nat) : Bool :=
  match connectedAt with
  | none => true
  | some tc => startedAt + 10 ≤ tc

/-- `dispatch_connection_lost` (lines 300-303): call `lost_connection()` on
every registered listener, once each, in registration order. -/
def dispatchConnectionLost (listeners : List String) : List String :=
  listeners

/-- How many times the watchdog callback of one episode runs: a
`threading.Timer` is one-shot, so once at the firing instant if not cancelled
earlier, never again. -/
def watchdogRunCount (startedAt : Nat) (connectedAt : Option Nat) : Nat :=
  if watchdogFires startedAt connectedAt then 1 else 0

/-- All `lost_connection` notifications produced by one watchdog episode. -/
def episodeNotifications (listeners : List String) (startedAt : Nat)
    (connectedAt : Option Nat) : List String :=
  if watchdogFires startedAt connectedAt then dispatchConnectionLost listeners
  else []

/-! ## Debug-log redaction (lines 211-217, 238-243) -/

/-- Inbound debug log (lines 211-217): `copy.copy(js_data)` with
`accessToken` and `refreshToken` overwritten by `"*****"`, then serialized. -/
def redactInboundLog (jsData : JObj) : JObj :=
  jset (jset jsData "accessToken" (.str "*****")) "refreshToken" (.str "*****")

/-- Outbound debug log (lines 238-243): `copy.copy(msg)` with `token`
overwritten by `"*****"`, then serialized. -/
def redactOutboundLog (msg : JObj) : JObj :=
  jset msg "token" (.str "*****")

/-! ## Helper lemmas about the drain pass -/

theorem drainQueue_append {α : Type} (transmit : α → Bool) (q : List α) :
    (drainQueue transmit q).1 ++ (drainQueue transmit q).2 = q := by
  induction q with
  | nil => rfl
  | cons m rest ih =>
    by_cases h : transmit m = true
    · simp [drainQueue, h, ih]
    · simp only [Bool.not_eq_true] at h
      simp [drainQueue, h]

theorem drainQueue_sent_ok {α : Type} (transmit : α → Bool) (q : List α) :
    ∀ m ∈ (drainQueue transmit q).1, transmit m = true := by
  induction q with
  | nil => intro m hm; simp [drainQueue] at hm
  | cons x rest ih =>
    intro m hm
    by_cases h : transmit x = true
    · simp only [drainQueue, h, if_true, List.mem_cons] at hm
      rcases hm with hm | hm
      · exact hm ▸ h
      · exact ih m hm
    · simp only [Bool.not_eq_true] at h
      simp [drainQueue, h] at hm
  -- no further cases

theorem drainQueue_fail_head {α : Type} (transmit : α → Bool) (q : List α) :
    ∀ m rest, (drainQueue transmit q).2 = m :: rest → transmit m = false := by
  induction q with
  | nil => intro m rest h; simp [drainQueue] at h
  | cons x qrest ih =>
    intro m rest h
    by_cases hx : transmit x = true
    · simp only [drainQueue, hx, if_true] at h
      exact ih m rest h
    · simp only [Bool.not_eq_true] at hx
      simp only [drainQueue, hx, Bool.false_eq_true, if_false,
        List.cons.injEq] at h
      exact h.1 ▸ hx

theorem drainQueue_all_ok {α : Type} (transmit : α → Bool)
    (h : ∀ m, transmit m = true) (q : List α) :
    drainQueue transmit q = (q, []) := by
  induction q with
  | nil => rfl
  | cons m rest ih => simp [drainQueue, h m, ih]

/-! ## The claims -/

/-- Claim C1. The claim states that `ts` values assigned by consecutive
`send_action` calls in one episode are strictly increasing, and that a call in
the same wall-clock second as its predecessor gets `previous ts + 1`. The code
violates this — and its own comment, `to be sure each msg have different ts` —
as soon as THREE commands share one wall-clock second: `get_ts()` returns 100
three times, `_last_ts_msg` starts at 0, and the assigned values are
100, 101, 100 — the third repeats the first (count of 100 is 2), the sequence
is not strictly increasing, and the third is not `previous + 1 = 102`. -/
theorem C1_ts_not_strictly_increasing :
    assignTsList 0 [100, 100, 100] = [100, 101, 100] ∧
    ¬ List.Chain' (· < ·) (assignTsList 0 [100, 100, 100]) ∧
    (assignTsList 0 [100, 100, 100]).count 100 = 2 := by
  refine ⟨by decide, ?_, by decide⟩
  rw [show assignTsList 0 [100, 100, 100] = [100, 101, 100] from by decide]
  norm_num [List.chain'_cons, List.chain'_singleton]

/-- Claim C2: per disconnect episode — if the reconnect reaches Connected
strictly inside the 10-second window, the watchdog is cancelled and no
listener is ever notified of loss; if the watchdog is not cancelled in time it
runs exactly once and `lost_connection` reaches each registered listener
exactly once (once per registration). -/
theorem C2_watchdog_episode :
    (∀ (listeners : List String) (t0 tc : ℕ), tc < t0 + 10 →
      episodeNotifications listeners t0 (some tc) = [] ∧
      watchdogRunCount t0 (some tc) = 0) ∧
    (∀ (listeners : List String) (t0 : ℕ) (connectedAt : Option ℕ),
      watchdogFires t0 connectedAt = true →
      watchdogRunCount t0 connectedAt = 1 ∧
      ∀ l : String, (episodeNotifications listeners t0 connectedAt).count l =
        listeners.count l) := by
  constructor
  · intro listeners t0 tc h
    have hf : watchdogFires t0 (some tc) = false := by
      simp only [watchdogFires, decide_eq_false_iff_not]
      omega
    simp [episodeNotifications, watchdogRunCount, hf]
  · intro listeners t0 connectedAt h
    simp [episodeNotifications, watchdogRunCount, h, dispatchConnectionLost]

/-- Witness for C2 at a concrete episode: drop watchdog started at t = 0,
reconnect Connected at t = 3 < 10 — no notification, the callback never runs. -/
theorem C2_watchdog_episode_witness :
    episodeNotifications ["observerA", "observerB"] 0 (some 3) = [] ∧
    watchdogRunCount 0 (some 3) = 0 :=
  C2_watchdog_episode.1 ["observerA", "observerB"] 0 3 (by decide)

/-- Claim C3: a drain pass transmits messages in FIFO enqueue order — the sent
messages followed by the leftover queue reassemble the original queue, every
sent message's transmission succeeded, and a non-empty leftover queue starts
with the (unique re-inserted) message whose transmission failed. A later pass
whose transmissions succeed sends exactly the leftover messages in order, so
nothing already sent is ever retransmitted. Concretely: enqueue A, B, C with B
failing — the pass sends [A] and leaves [B, C]; the next pass sends [B, C],
never A again. -/
theorem C3_drain_fifo_retry {α : Type} (transmit : α → Bool) (queue : List α) :
    (drainQueue transmit queue).1 ++ (drainQueue transmit queue).2 = queue ∧
    (∀ m ∈ (drainQueue transmit queue).1, transmit m = true) ∧
    (∀ m rest, (drainQueue transmit queue).2 = m :: rest →
      transmit m = false) ∧
    (∀ transmit2 : α → Bool, (∀ m, transmit2 m = true) →
      drainQueue transmit2 (drainQueue transmit queue).2 =
        ((drainQueue transmit queue).2, [])) ∧
    drainQueue (fun s : String => s != "B") ["A", "B", "C"] =
      (["A"], ["B", "C"]) ∧
    drainQueue (fun _ : String => true) ["B", "C"] = (["B", "C"], []) := by
  refine ⟨drainQueue_append transmit queue, drainQueue_sent_ok transmit queue,
    drainQueue_fail_head transmit queue, ?_, by decide, by decide⟩
  intro transmit2 h2
  exact drainQueue_all_ok transmit2 h2 _

/-- Witness for C3 at the A, B, C example with transmission failing on B. -/
theorem C3_drain_fifo_retry_witness :
    drainQueue (fun _ : String => true)
      (drainQueue (fun s : String => s != "B") ["A", "B", "C"]).2 =
      ((drainQueue (fun s : String => s != "B") ["A", "B", "C"]).2, []) :=
  (C3_drain_fifo_retry (fun s : String => s != "B") ["A", "B", "C"]).2.2.2.1
    (fun _ => true) (fun _ => rfl)

/-- Counterexample to claim C4 as stated: the claim says `async_refresh_token`
is invoked iff elapsed ≥ 1200 s, but the code's gate (line 135) is strict
(`> 1200`): at elapsed exactly 1200 s no refresh call occurs. -/
theorem C4_refresh_gate_cex :
    ¬ ∀ (now : Int) (s : SessionState),
        ((refreshTokenTick now s).2 = 1 ↔ 1200 ≤ now - s.lastRefreshTokenTs) := by
  intro h
  have h1200 := (h 1200 ⟨true, false, 0, false⟩).mpr (by norm_num)
  simp [refreshTokenTick, refreshDue] at h1200

/-- Claim C4 amended: on a refresh-timer tick, `async_refresh_token` is
invoked (exactly once) iff elapsed = now − lastRefreshTimestamp is STRICTLY
greater than 1200 s; at elapsed 1199 s and 1200 s no call occurs, at 1201 s
exactly one call occurs. -/
theorem C4_refresh_gate :
    (∀ (now : Int) (s : SessionState),
      (refreshTokenTick now s).2 = 1 ↔ 1200 < now - s.lastRefreshTokenTs) ∧
    (refreshTokenTick 1199 ⟨true, false, 0, false⟩).2 = 0 ∧
    (refreshTokenTick 1200 ⟨true, false, 0, false⟩).2 = 0 ∧
    (refreshTokenTick 1201 ⟨true, false, 0, false⟩).2 = 1 := by
  refine ⟨?_, by decide, by decide, by decide⟩
  intro now s
  by_cases h : 1200 < now - s.lastRefreshTokenTs
  · simp [refreshTokenTick, refreshDue, h]
  · simp [refreshTokenTick, refreshDue, h]

/-- Counterexample to claim C5 as stated: the connection-failure handler
(line 257) assigns `_last_refresh_token_ts = get_ts() - 1200`, a value smaller
than the current one: with the field at 1000 and the clock at 1005 it writes
1005 − 1200 = −195 < 1000. -/
theorem C5_refresh_ts_rollback_cex :
    (rollbackRefreshTs 1005
        (⟨true, false, 1000, true⟩ : SessionState)).lastRefreshTokenTs <
      (⟨true, false, 1000, true⟩ : SessionState).lastRefreshTokenTs := by
  decide

/-- Claim C5 amended: every assignment of `_last_refresh_token_ts` on login,
connect and refresh success writes the current clock value, so it never
decreases the field once the clock has passed the stored value — EXCEPT the
connection-failure handler, which deliberately writes `now − 1200` (and hence
can decrease it) to force a refresh on the next tick. -/
theorem C5_refresh_ts_monotone_except_rollback :
    (∀ (now : Int) (s : SessionState), s.lastRefreshTokenTs ≤ now →
      s.lastRefreshTokenTs ≤ (setRefreshTsNow now s).lastRefreshTokenTs ∧
      (setRefreshTsNow now s).lastRefreshTokenTs = now) ∧
    (∀ (now : Int) (s : SessionState),
      (rollbackRefreshTs now s).lastRefreshTokenTs = now - 1200) := by
  constructor
  · intro now s h
    exact ⟨h, rfl⟩
  · intro now s
    rfl

/-- Witness for C5 (amended) at a concrete state: field at 3, clock at 5. -/
theorem C5_refresh_ts_monotone_witness :
    (⟨true, false, 3, true⟩ : SessionState).lastRefreshTokenTs ≤
      (setRefreshTsNow 5 (⟨true, false, 3, true⟩ : SessionState)).lastRefreshTokenTs ∧
    (setRefreshTsNow 5 (⟨true, false, 3, true⟩ : SessionState)).lastRefreshTokenTs = 5 :=
  C5_refresh_ts_monotone_except_rollback.1 5 ⟨true, false, 3, true⟩ (by decide)

/-- Claim C6. The claim says a frame whose payload fails to parse is silently
discarded with no observer call. Evaluating the loop iteration at the failing
input shows otherwise: after an earlier frame parsed to a StateUpdate event,
a malformed frame leaves the stale `js_data` in place and RE-DISPATCHES that
stale event to every listener; and when no earlier frame ever parsed, the
malformed frame raises `UnboundLocalError` at `js_data["message_type"]`
(line 221), which escapes the loop and tears the connection down. -/
theorem C6_malformed_frame_not_discarded :
    recvIteration
        (some [("message_type", JVal.str "StateUpdate"), ("temp", JVal.num 72)])
        none ["observerA"] =
      .ok (some [("message_type", JVal.str "StateUpdate"), ("temp", JVal.num 72)],
        [("observerA",
          [("message_type", JVal.str "StateUpdate"), ("temp", JVal.num 72)])]) ∧
    recvIteration none none ["observerA"] = .error .unboundLocal := by
  exact ⟨rfl, rfl⟩

/-- Counterexample to claim C7 as stated: the keepalive frame built by
`send_ping` (lines 305-310) carries NO `mid` field and NO `ts` field. -/
theorem C7_ping_frame_cex :
    jget (sendPingFrame "tok") "mid" = none ∧
    jget (sendPingFrame "tok") "ts" = none := by
  decide

/-- Claim C7 amended: every command frame built by `send_action` carries
`token` = current accessToken, `mid` = sessionId and `ts` = the assigned
Unix-seconds value; the keepalive frame from `send_ping` carries only
`message` and `token` = current accessToken — no `mid`, no `ts`. -/
theorem C7_outbound_frame_fields (payload : JObj)
    (accessToken sessionId : String) (now lastTsMsg : Int) :
    jget (sendActionFrame payload accessToken sessionId now lastTsMsg).1
        "token" = some (.str accessToken) ∧
    jget (sendActionFrame payload accessToken sessionId now lastTsMsg).1
        "mid" = some (.str sessionId) ∧
    jget (sendActionFrame payload accessToken sessionId now lastTsMsg).1
        "ts" = some (.num (sendActionTs now lastTsMsg)) ∧
    jget (sendPingFrame accessToken) "token" = some (.str accessToken) ∧
    jget (sendPingFrame accessToken) "mid" = none ∧
    jget (sendPingFrame accessToken) "ts" = none := by
  refine ⟨?_, ?_, ?_, by simp [sendPingFrame, jget], by simp [sendPingFrame, jget],
    by simp [sendPingFrame, jget]⟩
  · show jget (jset (jset (jset payload "token" (.str accessToken))
      "mid" (.str sessionId)) "ts" (.num (sendActionTs now lastTsMsg)))
      "token" = some (.str accessToken)
    rw [jget_jset_other _ _ _ _ (by decide), jget_jset_other _ _ _ _ (by decide),
      jget_jset_self]
  · show jget (jset (jset (jset payload "token" (.str accessToken))
      "mid" (.str sessionId)) "ts" (.num (sendActionTs now lastTsMsg)))
      "mid" = some (.str sessionId)
    rw [jget_jset_other _ _ _ _ (by decide), jget_jset_self]
  · exact jget_jset_self _ _ _

/-- Claim C8: `close` sets `_stop_running` and clears `_is_running`, so the
`while self._is_running` guard fails at the next iteration boundary (the call
itself waits only the fixed 0.5 s grace sleep) and the post-loop
`if not self._stop_running` reconnect branch is not taken — no reconnect
attempt follows a stop. -/
theorem C8_graceful_stop (s : SessionState) :
    loopContinues (close s) = false ∧
    reconnectScheduled (close s) = false ∧
    closeGraceMs = 500 := by
  simp [loopContinues, reconnectScheduled, close, closeGraceMs]

/-- Counterexample to claim C9 as stated: inbound-log redaction (lines
211-217) masks only the keys `accessToken` and `refreshToken`; an inbound
event carrying the literal access-token value under the key `token` is
serialized into the debug log verbatim, redaction marker or not. -/
theorem C9_redaction_cex :
    objHasVal
      (redactInboundLog
        [("message_type", JVal.str "Ping"), ("token", JVal.str "SECRET")])
      (JVal.str "SECRET") = true := by
  decide

/-- Claim C9 amended: the outbound debug log substitutes the marker `*****`
for the `token` field and the inbound debug log substitutes it for the
`accessToken` and `refreshToken` fields; provided the serialized object holds
the secret value only under those redacted keys, the emitted log never
contains the literal token value. -/
theorem C9_redaction (secret : String) (hsec : secret ≠ "*****") :
    (∀ msg : JObj, (∀ p ∈ msg, p.2 = JVal.str secret → p.1 = "token") →
      objHasVal (redactOutboundLog msg) (JVal.str secret) = false) ∧
    (∀ js : JObj,
      (∀ p ∈ js, p.2 = JVal.str secret →
        p.1 = "accessToken" ∨ p.1 = "refreshToken") →
      objHasVal (redactInboundLog js) (JVal.str secret) = false) := by
  constructor
  · intro msg hkeys
    refine objHasVal_eq_false _ _ ?_
    intro p hp hval
    rcases mem_jset msg "token" (.str "*****") p hp with h | ⟨hmem, hkey⟩
    · rw [h] at hval
      simp only at hval
      exact hsec (JVal.str.injEq _ _ ▸ hval.symm ▸ rfl)
    · exact hkey (hkeys p hmem hval)
  · intro js hkeys
    refine objHasVal_eq_false _ _ ?_
    intro p hp hval
    rcases mem_jset _ "refreshToken" (.str "*****") p hp with h | ⟨hmem, hkey⟩
    · rw [h] at hval
      simp only at hval
      exact hsec (JVal.str.injEq _ _ ▸ hval.symm ▸ rfl)
    · rcases mem_jset js "accessToken" (.str "*****") p hmem with
        h' | ⟨hmem', hkey'⟩
      · rw [h'] at hval
        simp only at hval
        exact hsec (JVal.str.injEq _ _ ▸ hval.symm ▸ rfl)
      · rcases hkeys p hmem' hval with h' | h'
        · exact hkey' h'
        · exact hkey h'

/-- Witness for C9 (amended) at a concrete command: a command whose token
field holds the secret is logged with the marker and without the secret. -/
theorem C9_redaction_witness :
    objHasVal (redactOutboundLog [("token", JVal.str "SECRET")])
      (JVal.str "SECRET") = false :=
  (C9_redaction "SECRET" (by decide)).1 [("token", JVal.str "SECRET")]
    (by
      intro p hp _
      simp only [List.mem_singleton] at hp
      rw [hp])

/-- Claim C10: `close` only flips the run flags and never touches the refresh
timer, and `refresh_token` unconditionally reschedules itself at the start of
every tick with no look at `_stop_running` or `_is_running` — so refresh ticks
keep firing after the session is stopped. -/
theorem C10_refresh_timer_survives_close (s : SessionState) (now : Int) :
    (close s).refreshTimerScheduled = s.refreshTimerScheduled ∧
    (close s).stopRunning = true ∧
    (close s).isRunning = false ∧
    (refreshTokenTick now (close s)).1.refreshTimerScheduled = true := by
  simp [close, refreshTokenTick]

end CieloHome
